import Mathlib

/-!
Verification development for the `pendulum` repository: a lifecycle-gated
real-time inverted-pendulum control loop.

Numeric values are embedded as rationals (`ℚ`): every constant appearing in
the source (`GRAVITY = 9.80665`, `PI = 3.14159265359`, the default feedback
matrix, `dt`) is an exact decimal literal, so rational arithmetic mirrors
the source expressions structurally; the transcendental `std::sin` used by
the motor simulator is abstracted as a parameter `sinA : ℚ → ℚ`, and every
theorem about the simulator holds for an arbitrary such function.
-/

namespace Pendulum

/-- Modelled from the spec: the `PendulumController` class implementation is
not part of the excerpted source (only its call sites in
`pendulum_controller_node.cpp` are), so its contract is taken from spec
sections 4.1 and 3: a 4-coefficient feedback gain fixed at construction, the
latest plant state, the latest teleoperation setpoint, and the stored force
command. -/
structure PendulumController where
  gain0 : ℚ
  gain1 : ℚ
  gain2 : ℚ
  gain3 : ℚ
  cart_position : ℚ
  cart_velocity : ℚ
  pole_angle : ℚ
  pole_velocity : ℚ
  teleop_position : ℚ
  teleop_velocity : ℚ
  force_command : ℚ
deriving DecidableEq, Repr

namespace PendulumController

/-- Modelled from the spec: construction from a 4-element feedback matrix
(`Config` in the source call site); all other state starts at the zero
baseline. -/
def make (g0 g1 g2 g3 : ℚ) : PendulumController :=
  ⟨g0, g1, g2, g3, 0, 0, 0, 0, 0, 0, 0⟩

/-- The default feedback matrix `{-10.0000, -51.5393, 356.8637, 154.4146}`
declared for parameter `controller.feedback_matrix` in the
`PendulumControllerNode` constructor (source lines 42-44). -/
def default_controller : PendulumController :=
  make (-10) (-51.5393) 356.8637 154.4146

/-- Modelled from the spec: `set_state` records the latest sensed plant
state, overwriting the previous value. -/
def set_state (c : PendulumController) (cp cv pa pv : ℚ) : PendulumController :=
  { c with cart_position := cp, cart_velocity := cv,
           pole_angle := pa, pole_velocity := pv }

/-- Modelled from the spec: `set_teleop` records the latest operator
setpoint, overwriting the previous value. -/
def set_teleop (c : PendulumController) (p v : ℚ) : PendulumController :=
  { c with teleop_position := p, teleop_velocity := v }

/-- Modelled from the spec: `update` computes
`command = FeedbackGain · error_vector` with
`error_vector = [cart_position − teleop.position, cart_velocity − teleop.velocity,
pole_angle, pole_angular_velocity]` and stores it for `get_force_command`. -/
def update (c : PendulumController) : PendulumController :=
  { c with force_command :=
      c.gain0 * (c.cart_position - c.teleop_position) +
      c.gain1 * (c.cart_velocity - c.teleop_velocity) +
      c.gain2 * c.pole_angle +
      c.gain3 * c.pole_velocity }

/-- Modelled from the spec: `reset` clears the teleop setpoint and all
accumulated state to the zero baseline without altering the feedback gain. -/
def reset (c : PendulumController) : PendulumController :=
  { c with cart_position := 0, cart_velocity := 0,
           pole_angle := 0, pole_velocity := 0,
           teleop_position := 0, teleop_velocity := 0,
           force_command := 0 }

/-- Modelled from the spec: pure accessor for the stored command. -/
def get_force_command (c : PendulumController) : ℚ := c.force_command

/-- Modelled from the spec: pure accessor for the recorded plant state, in
the order logged by `log_controller_state`. -/
def get_state (c : PendulumController) : List ℚ :=
  [c.cart_position, c.cart_velocity, c.pole_angle, c.pole_velocity]

/-- Modelled from the spec: pure accessor for the recorded teleop setpoint. -/
def get_teleop (c : PendulumController) : List ℚ :=
  [c.teleop_position, c.teleop_velocity]

end PendulumController

/-- The four primary lifecycle states of a managed node
(`lifecycle_msgs::msg::State` primary states referenced by the source). -/
inductive LifecycleState where
  | Unconfigured
  | Inactive
  | Active
  | Finalized
deriving DecidableEq, Repr

/-- Diagnostic snapshot emitted by `log_controller_state` (source lines
140-154): the controller state, the teleop setpoint, the last force command
and the missed-deadline count. -/
structure Snapshot where
  state : List ℚ
  teleop : List ℚ
  force_command : ℚ
  num_missed_deadlines : ℕ
deriving DecidableEq, Repr

/-- Observable state of `PendulumControllerNode`: the lifecycle state, the
activation flag of the lifecycle command publisher, the controller, the
missed-deadline counter (source line 45 initialises it to 0), and the traces
of published commands and emitted diagnostic snapshots. -/
structure NodeState where
  lifecycle : LifecycleState
  pub_active : Bool
  controller : PendulumController
  num_missed_deadlines : ℕ
  published : List ℚ
  snapshots : List Snapshot
deriving DecidableEq, Repr

/-- Events driving the node: a sensor sample handled by the realtime loop, a
teleop message, a wait timeout, and the externally triggered lifecycle
transitions. -/
inductive Event where
  | sensor (cp cv pa pv : ℚ)
  | teleop (p v : ℚ)
  | timeout
  | configure
  | activate
  | deactivate
  | cleanup
  | shutdown
deriving DecidableEq, Repr

/-- The snapshot content logged by `log_controller_state` (source lines
140-154): `get_state`, `get_teleop`, `get_force_command` and
`num_missed_deadlines_`. -/
def log_controller_state (s : NodeState) : Snapshot :=
  ⟨s.controller.get_state, s.controller.get_teleop,
    s.controller.get_force_command, s.num_missed_deadlines⟩

/-- One step of the node.

* `sensor`: the `on_sensor_message` callback (source lines 82-94) runs
  `set_state` then `update` on the controller unconditionally and then calls
  `publish` on the lifecycle publisher; modelled from the spec, publication
  through the lifecycle publisher is a no-op unless it has been activated
  ("publication is a no-op unless Active"), the publisher class itself being
  outside the excerpted source.
* `teleop`: the `on_pendulum_teleop` callback (source lines 65-67).
* `timeout`: the `Timeout` branch of `realtime_loop` (source lines 132-136)
  increments `num_missed_deadlines_` exactly when the current lifecycle
  state is `PRIMARY_STATE_ACTIVE`.
* lifecycle events: the transition topology (which transitions are accepted
  from which state) is the managed-node machine of spec section 4.3, the
  library implementing it being outside the excerpted source; the actions
  are the node's own callbacks `on_configure` (reset the controller, source
  lines 156-163), `on_activate` (activate the publisher, lines 165-171),
  `on_deactivate` (deactivate the publisher and log one snapshot, lines
  173-181), `on_cleanup` (lines 183-188) and `on_shutdown` (release all
  resources and enter Finalized, lines 190-195 with the resource release
  modelled from the spec). A transition not accepted in the current state
  leaves the state unchanged. -/
def step (s : NodeState) (e : Event) : NodeState :=
  match e with
  | .sensor cp cv pa pv =>
      let c := (s.controller.set_state cp cv pa pv).update
      { s with controller := c,
               published :=
                 if s.pub_active then s.published ++ [c.get_force_command]
                 else s.published }
  | .teleop p v => { s with controller := s.controller.set_teleop p v }
  | .timeout =>
      if s.lifecycle = .Active then
        { s with num_missed_deadlines := s.num_missed_deadlines + 1 }
      else s
  | .configure =>
      if s.lifecycle = .Unconfigured then
        { s with lifecycle := .Inactive, controller := s.controller.reset }
      else s
  | .activate =>
      if s.lifecycle = .Inactive then
        { s with lifecycle := .Active, pub_active := true }
      else s
  | .deactivate =>
      if s.lifecycle = .Active then
        { s with lifecycle := .Inactive, pub_active := false,
                 snapshots := s.snapshots ++ [log_controller_state s] }
      else s
  | .cleanup =>
      if s.lifecycle = .Inactive then
        { s with lifecycle := .Unconfigured }
      else s
  | .shutdown =>
      if s.lifecycle ≠ .Finalized then
        { s with lifecycle := .Finalized, pub_active := false }
      else s

/-- Run the node from a state through a sequence of events. -/
def run (s : NodeState) (es : List Event) : NodeState := es.foldl step s

/-- The initial node state: a fresh `PendulumControllerNode` starts
unconfigured with the default feedback matrix, a deactivated publisher and
`num_missed_deadlines_ = 0` (source lines 29-61). -/
def initNode : NodeState :=
  ⟨.Unconfigured, false, PendulumController.default_controller, 0, [], []⟩

/-! ## Motor simulator (`motor_sim.hpp`) -/

/-- `GRAVITY` macro of `motor_sim.hpp` (line 8). -/
def GRAVITY : ℚ := 9.80665

/-- `PI` macro of `motor_sim.hpp` (line 12). -/
def PI : ℚ := 3.14159265359

/-- `PendulumProperties` of `motor_sim.hpp` (lines 19-25). -/
structure PendulumProperties where
  mass : ℚ
  length : ℚ
deriving DecidableEq, Repr

/-- The default member values of `PendulumProperties`. -/
def default_properties : PendulumProperties := ⟨0.01, 0.5⟩

/-- `PendulumState` of `motor_sim.hpp` (lines 28-38). -/
structure PendulumState where
  position : ℚ
  velocity : ℚ
  acceleration : ℚ
  torque : ℚ
deriving DecidableEq, Repr

/-- `MotorSim` data: the timestep `dt_` computed from the publish period,
the physical properties and the dynamic state. -/
structure MotorSim where
  dt : ℚ
  properties : PendulumProperties
  state : PendulumState
deriving DecidableEq, Repr

/-- The position-limit enforcement repeated in `update_motor_command`
(lines 61-65) and `update_motor_state` (lines 74-78): clamp into `[0, PI]`. -/
def clamp_position (p : ℚ) : ℚ :=
  if p > PI then PI else if p < 0 then 0 else p

/-- `MotorSim::update_motor_command` (lines 54-66): direct position control;
the commanded position is stored and then the position limits are
enforced. -/
def MotorSim.update_motor_command (m : MotorSim) (msg_position : ℚ) : MotorSim :=
  { m with state := { m.state with position := clamp_position msg_position } }

/-- `MotorSim::update_motor_state` (lines 68-79): the acceleration is
computed from gravity and torque, then `velocity += acceleration * dt_`,
then `position += velocity * dt_`, then the position limits are enforced.
`std::sin` is abstracted as the parameter `sinA`. -/
def MotorSim.update_motor_state (sinA : ℚ → ℚ) (m : MotorSim) : MotorSim :=
  let acceleration :=
    GRAVITY * sinA (m.state.position - PI / 2) / m.properties.length +
      m.state.torque / (m.properties.mass * m.properties.length * m.properties.length)
  let velocity := m.state.velocity + acceleration * m.dt
  let position := m.state.position + velocity * m.dt
  { m with state := ⟨clamp_position position, velocity, acceleration, m.state.torque⟩ }

/-- The Euler integration step exactly as the spec words it:
"`velocity += acceleration·dt; position += velocity·dt`", with the
acceleration computed first from gravity and torque; no clamping here. -/
def euler_step (sinA : ℚ → ℚ) (m : MotorSim) : PendulumState :=
  let acceleration :=
    GRAVITY * sinA (m.state.position - PI / 2) / m.properties.length +
      m.state.torque / (m.properties.mass * m.properties.length * m.properties.length)
  let velocity := m.state.velocity + acceleration * m.dt
  let position := m.state.position + velocity * m.dt
  ⟨position, velocity, acceleration, m.state.torque⟩

/-! ## Process real-time configuration (`pendulum_controller_node_main.cpp`) -/

/-- An OS call that the process real-time configuration may perform. -/
inductive OsCall where
  | set_thread_priority (priority : ℕ)
  | set_cpu_affinity (affinity : ℕ)
  | lock_memory_call (size_mb : ℕ)
deriving DecidableEq, Repr

/-- `ProcessSettings` as constructed in the node constructor (source lines
48-56 of `pendulum_controller_node.cpp`). -/
structure ProcessSettings where
  lock_memory : Bool
  process_priority : ℕ
  cpu_affinity : ℕ
  lock_memory_size_mb : ℕ
  configure_child_threads : Bool
deriving DecidableEq, Repr

/-- Modelled from the spec: `pendulum::utils::configure_process_priority` is
outside the excerpted source; per spec section 4.2 it sets the calling
thread's scheduling priority and CPU affinity, and "a value of 0 for either
means leave at OS default", i.e. no OS call is made for a zero value. The
result is the list of OS calls performed. -/
def configure_process_priority (priority affinity : ℕ) : List OsCall :=
  (if priority ≠ 0 then [OsCall.set_thread_priority priority] else []) ++
    (if affinity ≠ 0 then [OsCall.set_cpu_affinity affinity] else [])

/-- Modelled from the spec: `pendulum::utils::lock_process_memory` is
outside the excerpted source; per spec section 4.2 it locks the specified
amount of process memory, i.e. it always performs its OS call. -/
def lock_process_memory (size_mb : ℕ) : List OsCall :=
  [OsCall.lock_memory_call size_mb]

/-- The OS calls performed by `main`
(`pendulum_controller_node_main.cpp` lines 48-58): the realtime thread
unconditionally calls `configure_process_priority(priority, affinity)`, and
the main thread calls `lock_process_memory(size)` exactly when
`proc_settings.lock_memory` holds. -/
def main_os_calls (ps : ProcessSettings) : List OsCall :=
  configure_process_priority ps.process_priority ps.cpu_affinity ++
    (if ps.lock_memory then lock_process_memory ps.lock_memory_size_mb else [])

/-- Whether an OS call is a memory-locking call. -/
def OsCall.is_lock_memory : OsCall → Bool
  | .lock_memory_call _ => true
  | _ => false

/-! ## Deadline duration (`pendulum_controller_node.cpp` lines 40-41) -/

/-- Nanoseconds in `n` milliseconds (`std::chrono::milliseconds`). -/
def milliseconds_to_nanos (n : ℕ) : ℕ := n * 1000000

/-- Nanoseconds in `n` microseconds (`std::chrono::microseconds`). -/
def microseconds_to_nanos (n : ℕ) : ℕ := n * 1000

/-- `deadline_duration_` (source lines 40-41): the declared integer
parameter named "deadline_us" is wrapped in `std::chrono::milliseconds`, so
the wait timeout in nanoseconds is the parameter value times 10^6. -/
def deadline_duration_nanos (deadline_us_param : ℕ) : ℕ :=
  milliseconds_to_nanos deadline_us_param

/-- The default value `2000U` declared for the "deadline_us" parameter. -/
def default_deadline_us : ℕ := 2000

/-- The control law as a pure function of the gain, the plant state and the
teleop setpoint alone (spec section 3, "Command is a deterministic function
of the most recent PlantState, the current TeleopSetpoint, and
FeedbackGain"). -/
def command_law (g0 g1 g2 g3 cp cv pa pv tp tv : ℚ) : ℚ :=
  g0 * (cp - tp) + g1 * (cv - tv) + g2 * pa + g3 * pv

/-! ## Helper lemmas -/

/-- No single event decreases the missed-deadline counter. -/
theorem num_missed_le_step (s : NodeState) (e : Event) :
    s.num_missed_deadlines ≤ (step s e).num_missed_deadlines := by
  cases e <;> simp only [step] <;> (try split) <;> simp

/-- No event sequence decreases the missed-deadline counter. -/
theorem num_missed_le_run (s : NodeState) (es : List Event) :
    s.num_missed_deadlines ≤ (run s es).num_missed_deadlines := by
  induction es generalizing s with
  | nil => exact le_refl _
  | cons e es ih => exact le_trans (num_missed_le_step s e) (ih (step s e))

/-- The publisher-gating invariant: the command publisher is activated only
while the lifecycle state is Active. -/
def pubInv (s : NodeState) : Prop := s.pub_active = true → s.lifecycle = .Active

/-- Every step preserves the publisher-gating invariant. -/
theorem pubInv_step (s : NodeState) (e : Event) (h : pubInv s) : pubInv (step s e) := by
  cases e <;> simp only [step, pubInv] at h ⊢ <;> (try split) <;> simp_all

/-- Every run preserves the publisher-gating invariant. -/
theorem pubInv_run (s : NodeState) (es : List Event) (h : pubInv s) : pubInv (run s es) := by
  induction es generalizing s with
  | nil => exact h
  | cons e es ih => exact ih (step s e) (pubInv_step s e h)

/-- The initial node state satisfies the publisher-gating invariant. -/
theorem pubInv_init : pubInv initNode := by
  intro h
  simp [initNode] at h

/-- `clamp_position` lands in `[0, PI]`. -/
theorem clamp_position_mem (p : ℚ) : 0 ≤ clamp_position p ∧ clamp_position p ≤ PI := by
  unfold clamp_position PI
  split
  · norm_num
  · split
    · norm_num
    · constructor <;> linarith

/-! ## Claim theorems -/

/-- C1: on a wait timeout the missed-deadline counter increments by exactly
1 when the lifecycle state is Active and by 0 in every other state, and the
counter never decreases across any sequence of loop iterations and
lifecycle events. -/
theorem C1_missed_deadline_counter :
    (∀ s : NodeState,
      (step s .timeout).num_missed_deadlines =
        if s.lifecycle = .Active then s.num_missed_deadlines + 1
        else s.num_missed_deadlines) ∧
    (∀ (s : NodeState) (es : List Event),
      s.num_missed_deadlines ≤ (run s es).num_missed_deadlines) := by
  constructor
  · intro s
    simp only [step]
    split <;> simp
  · exact num_missed_le_run

/-- C2: after `set_state(s)` and `set_teleop(t)`, `update()` computes the
command as the feedback gain dotted with
`[cart_position − teleop.position, cart_velocity − teleop.velocity,
pole_angle, pole_angular_velocity]`; with the default gain
`[-10, -51.5393, 356.8637, 154.4146]`, state `(0,0,0,0)` and teleop `(0,0)`
the command is 0, and state `(0,0,0.1,0)` with the same teleop yields
command `35.68637`. -/
theorem C2_update_command_law :
    (∀ (c : PendulumController) (cp cv pa pv tp tv : ℚ),
      (((c.set_state cp cv pa pv).set_teleop tp tv).update).get_force_command =
        c.gain0 * (cp - tp) + c.gain1 * (cv - tv) + c.gain2 * pa + c.gain3 * pv) ∧
    ((((PendulumController.default_controller.set_state 0 0 0 0).set_teleop 0 0).update).get_force_command = 0) ∧
    ((((PendulumController.default_controller.set_state 0 0 (0.1 : ℚ) 0).set_teleop 0 0).update).get_force_command = (35.68637 : ℚ)) := by
  refine ⟨fun c cp cv pa pv tp tv => rfl, ?_, ?_⟩ <;>
    norm_num [PendulumController.default_controller, PendulumController.make,
      PendulumController.set_state, PendulumController.set_teleop,
      PendulumController.update, PendulumController.get_force_command]

/-- C3: a sensor sample processed while the lifecycle state reached from
start-up is not Active still feeds the controller (`set_state` then
`update`), but publication is a no-op: the published trace is unchanged. -/
theorem C3_no_publication_unless_active :
    ∀ (es : List Event) (cp cv pa pv : ℚ),
      (run initNode es).lifecycle ≠ .Active →
        (step (run initNode es) (.sensor cp cv pa pv)).published =
          (run initNode es).published ∧
        (step (run initNode es) (.sensor cp cv pa pv)).controller =
          ((run initNode es).controller.set_state cp cv pa pv).update := by
  intro es cp cv pa pv h
  have hp : (run initNode es).pub_active = false := by
    cases hpa : (run initNode es).pub_active
    · rfl
    · exact absurd (pubInv_run initNode es pubInv_init hpa) h
  exact ⟨by simp [step, hp], rfl⟩

/-- Witness for C3 at the initial (Unconfigured) state with a concrete
sensor sample. -/
theorem C3_no_publication_unless_active_witness :
    (run initNode []).lifecycle ≠ LifecycleState.Active ∧
      ((step (run initNode []) (.sensor 1 2 3 4)).published =
          (run initNode []).published ∧
        (step (run initNode []) (.sensor 1 2 3 4)).controller =
          ((run initNode []).controller.set_state 1 2 3 4).update) :=
  ⟨by decide, C3_no_publication_unless_active [] 1 2 3 4 (by decide)⟩

/-- C4: `reset()` zeroes the teleop setpoint, the recorded plant state and
the stored command without changing the feedback gain, it is idempotent,
and `reset()` followed by `set_state` and `update()` with teleop never set
produces the command computed with teleop `(0,0)`. -/
theorem C4_reset_contract :
    ∀ (c : PendulumController) (cp cv pa pv : ℚ),
      (c.reset.gain0 = c.gain0 ∧ c.reset.gain1 = c.gain1 ∧
        c.reset.gain2 = c.gain2 ∧ c.reset.gain3 = c.gain3) ∧
      c.reset.get_teleop = [0, 0] ∧
      c.reset.get_state = [0, 0, 0, 0] ∧
      c.reset.get_force_command = 0 ∧
      c.reset.reset = c.reset ∧
      ((c.reset.set_state cp cv pa pv).update).get_force_command =
        (((c.reset.set_state cp cv pa pv).set_teleop 0 0).update).get_force_command :=
  fun c cp cv pa pv => ⟨⟨rfl, rfl, rfl, rfl⟩, rfl, rfl, rfl, rfl, rfl⟩

/-- C5: a deactivate transition taken from Active disables output
publication, moves to Inactive, and appends exactly one diagnostic snapshot
whose content is exactly the controller state, the teleop setpoint, the
last command and the missed-deadline count. -/
theorem C5_deactivate_snapshot :
    ∀ s : NodeState, s.lifecycle = .Active →
      (step s .deactivate).pub_active = false ∧
      (step s .deactivate).lifecycle = .Inactive ∧
      (step s .deactivate).snapshots =
        s.snapshots ++ [⟨s.controller.get_state, s.controller.get_teleop,
          s.controller.get_force_command, s.num_missed_deadlines⟩] := by
  intro s h
  refine ⟨?_, ?_, ?_⟩ <;> simp [step, h, log_controller_state]

/-- Witness for C5 at the Active state reached by configure then
activate. -/
theorem C5_deactivate_snapshot_witness :
    (run initNode [Event.configure, Event.activate]).lifecycle =
        LifecycleState.Active ∧
      ((step (run initNode [Event.configure, Event.activate]) .deactivate).pub_active = false ∧
        (step (run initNode [Event.configure, Event.activate]) .deactivate).lifecycle =
          LifecycleState.Inactive ∧
        (step (run initNode [Event.configure, Event.activate]) .deactivate).snapshots =
          (run initNode [Event.configure, Event.activate]).snapshots ++
            [⟨(run initNode [Event.configure, Event.activate]).controller.get_state,
              (run initNode [Event.configure, Event.activate]).controller.get_teleop,
              (run initNode [Event.configure, Event.activate]).controller.get_force_command,
              (run initNode [Event.configure, Event.activate]).num_missed_deadlines⟩]) :=
  ⟨by decide, C5_deactivate_snapshot _ (by decide)⟩

/-- C6: calling `update()` twice after `set_state(s); set_teleop(t)` with no
intervening input change yields the same command both times, and the
command is a function of only the gain, the latest plant state and the
current teleop setpoint. -/
theorem C6_update_deterministic :
    ∀ (c : PendulumController) (cp cv pa pv tp tv : ℚ),
      ((((c.set_state cp cv pa pv).set_teleop tp tv).update).update).get_force_command =
        (((c.set_state cp cv pa pv).set_teleop tp tv).update).get_force_command ∧
      (((c.set_state cp cv pa pv).set_teleop tp tv).update).get_force_command =
        command_law c.gain0 c.gain1 c.gain2 c.gain3 cp cv pa pv tp tv :=
  fun c cp cv pa pv tp tv => ⟨rfl, rfl⟩

/-- C7: `update_motor_state()` performs one Euler integration step —
acceleration from gravity and torque first, then
`velocity += acceleration·dt`, then `position += velocity·dt` — and then
clamps the position to the valid angular range, leaving `dt` and the
physical properties untouched. -/
theorem C7_update_motor_state_euler :
    ∀ (sinA : ℚ → ℚ) (m : MotorSim),
      (m.update_motor_state sinA).state =
        { euler_step sinA m with
            position := clamp_position (euler_step sinA m).position } ∧
      (m.update_motor_state sinA).dt = m.dt ∧
      (m.update_motor_state sinA).properties = m.properties :=
  fun sinA m => ⟨rfl, rfl, rfl⟩

/-- C8: with `process_priority = 0`, `cpu_affinity = 0` and
`lock_memory = false` the process real-time configuration performs no OS
call at all, and `lock_process_memory` is invoked if and only if
`lock_memory` is true. -/
theorem C8_proc_config_noop :
    (∀ (mb : ℕ) (child : Bool), main_os_calls ⟨false, 0, 0, mb, child⟩ = []) ∧
    (∀ ps : ProcessSettings,
      (main_os_calls ps).any OsCall.is_lock_memory = ps.lock_memory) := by
  constructor
  · intro mb child
    rfl
  · rintro ⟨lm, p, a, mb, ch⟩
    cases lm <;>
      simp [main_os_calls, configure_process_priority, lock_process_memory,
        OsCall.is_lock_memory]

/-- C9: the realtime loop's bounded wait timeout for a configured value `n`
of the parameter named "deadline_us" is `n` milliseconds (so `n·10^6`
nanoseconds), not `n` microseconds. -/
theorem C9_deadline_is_milliseconds :
    (∀ n : ℕ, deadline_duration_nanos n = n * 1000000) ∧
    deadline_duration_nanos default_deadline_us = 2000000000 ∧
    (∀ n : ℕ, 0 < n → deadline_duration_nanos n ≠ microseconds_to_nanos n) := by
  refine ⟨fun n => rfl, rfl, fun n hn => ?_⟩
  simp only [deadline_duration_nanos, milliseconds_to_nanos, microseconds_to_nanos]
  omega

/-- Witness for C9 at the default parameter value 2000. -/
theorem C9_deadline_is_milliseconds_witness :
    0 < default_deadline_us ∧
      deadline_duration_nanos default_deadline_us ≠
        microseconds_to_nanos default_deadline_us :=
  ⟨by decide, C9_deadline_is_milliseconds.2.2 default_deadline_us (by decide)⟩

/-- C10: both mutating operations of the motor simulator leave the angular
position in `[0, PI]`: `update_motor_command` stores the commanded position
clamped into the range, and `update_motor_state` re-clamps the integrated
position, for every state, command and sine function. -/
theorem C10_position_in_range :
    ∀ (sinA : ℚ → ℚ) (m : MotorSim) (pos : ℚ),
      (0 ≤ (m.update_motor_command pos).state.position ∧
        (m.update_motor_command pos).state.position ≤ PI) ∧
      (0 ≤ (m.update_motor_state sinA).state.position ∧
        (m.update_motor_state sinA).state.position ≤ PI) :=
  fun sinA m pos => ⟨clamp_position_mem _, clamp_position_mem _⟩

end Pendulum
